import Mathlib

/-!
Shallow embedding of `src/data/parser.py` (class `AnimeParser`): an anime
catalog crawler that pages through a listing site, extracts a fixed
19-field record per item via heuristic document queries, and appends each
record to a CSV store.

The HTML engine (BeautifulSoup) and HTTP transport are external
collaborators; documents are embedded at their query interface: each span
element carries the answers the code asks of the DOM (its text, its next
sibling, the next element in document order, its following siblings).
-/

namespace AnimeScrape

/-- A DOM element reduced to the only capability the code uses: `.text`. -/
structure Element where
  text : String
deriving DecidableEq, Repr

/-- A `span` element of a detail page, with the DOM-query answers used by
`AnimeParser`: its own text, its `itemprop` attribute, `.next_sibling`,
`.find_next()` and `.find_next_siblings()`. -/
structure SpanNode where
  spanText : String
  itemprop : Option String
  nextSibling : Option Element
  nextElement : Option Element
  followingSiblings : List Element
deriving DecidableEq, Repr

/-- A detail-page document: its spans in document order, the mandatory
title heading `h1.title-name h1_bold_none` (if present), and the element
reached by `find('h2', text='Synopsis').find_parent().next_sibling` when
that chase succeeds. -/
structure Doc where
  spans : List SpanNode
  titleH1 : Option Element
  synopsisParentSibling : Option Element
deriving DecidableEq, Repr

/-- The `text=` argument of `soup.find`: either an exact string
(e.g. `'English:'`) or a compiled regular expression used as a plain
substring test (`re.compile('Theme')`). -/
inductive TagMatcher where
  | exact (s : String)
  | pattern (p : String)
deriving DecidableEq, Repr

/-- Does the needle occur at the head of the haystack? -/
def headMatch : List Char → List Char → Bool
  | [], _ => true
  | _ :: _, [] => false
  | a :: as, b :: bs => a == b && headMatch as bs

/-- Substring containment over character lists. -/
def containsSub (needle : List Char) : List Char → Bool
  | [] => headMatch needle []
  | c :: cs => headMatch needle (c :: cs) || containsSub needle cs

/-- bs4 text matching: exact equality for a string argument; for a
compiled literal pattern, `re.search`, i.e. substring containment. -/
def matcherTest : TagMatcher → String → Bool
  | .exact l, t => t == l
  | .pattern p, t => containsSub p.data t.data

/-- `soup.find('span', text=tag_text)`: first span whose text matches. -/
def findSpanM (d : Doc) (m : TagMatcher) : Option SpanNode :=
  d.spans.find? (fun s => matcherTest m s.spanText)

/-- `soup.find('span', itemprop='ratingValue')`. -/
def findRatingSpan (d : Doc) : Option SpanNode :=
  d.spans.find? (fun s => s.itemprop == some "ratingValue")

/-- Python's whitespace class for `str.strip()`. -/
def isPySpace (c : Char) : Bool :=
  c == ' ' || c == '\t' || c == '\n' || c == '\r' || c == '\x0b' || c == '\x0c'

/-- `str.strip()` on the character list. -/
def trimChars (cs : List Char) : List Char :=
  ((cs.dropWhile isPySpace).reverse.dropWhile isPySpace).reverse

/-- Python `str.strip()`. -/
def strip (s : String) : String := ⟨trimChars s.data⟩

/-- Helper for `str.split` on the newline character. -/
def splitLinesAux : List Char → List (List Char)
  | [] => [[]]
  | c :: cs =>
    match splitLinesAux cs with
    | [] => [[]]
    | h :: t => if c == '\n' then [] :: h :: t else (c :: h) :: t

/-- Python `str.split('\n')`. -/
def splitLines (s : String) : List String :=
  (splitLinesAux s.data).map (fun cs => ⟨cs⟩)

/-- Python `sep.join(strs)`. -/
def joinWith (sep : String) : List String → String
  | [] => ""
  | [x] => x
  | x :: y :: xs => x ++ sep ++ joinWith sep (y :: xs)

/-- Python string `<`: lexicographic comparison by code point. -/
def lexLt : List Char → List Char → Bool
  | [], [] => false
  | [], _ :: _ => true
  | _ :: _, [] => false
  | a :: as, b :: bs =>
    if a.toNat < b.toNat then true
    else if b.toNat < a.toNat then false
    else lexLt as bs

/-- Python string `<` lifted to `String`. -/
def strLt (a b : String) : Bool := lexLt a.data b.data

/-- Python's `AttributeError`, raised when an attribute is read off `None`
(an absent element). -/
inductive AttrError where
  | mk
deriving DecidableEq, Repr

/-- Body of `_info_from_sibling`:
`soup.find('span', text=tag_text).next_sibling.text.strip()`.
An absent span, or an absent next sibling, raises `AttributeError`. -/
def info_from_sibling_raw (d : Doc) (m : TagMatcher) : Except AttrError String :=
  match findSpanM d m with
  | none => .error .mk
  | some s =>
    match s.nextSibling with
    | none => .error .mk
    | some e => .ok (strip e.text)

/-- Body of `_info_from_next_tag`:
`soup.find('span', text=tag_text).find_next().text.strip()`. -/
def info_from_next_tag_raw (d : Doc) (m : TagMatcher) : Except AttrError String :=
  match findSpanM d m with
  | none => .error .mk
  | some s =>
    match s.nextElement with
    | none => .error .mk
    | some e => .ok (strip e.text)

/-- Body of `_info_from_several_siblings`:
`soup.find('span', text=tag_text).find_next_siblings()`.
Only an absent span raises; the sibling list itself may be empty. -/
def info_from_several_siblings_raw (d : Doc) (m : TagMatcher) :
    Except AttrError (List Element) :=
  match findSpanM d m with
  | none => .error .mk
  | some s => .ok s.followingSiblings

/-- Body of `_search_rating_info`:
`soup.find('span', itemprop='ratingValue').text.strip()`. -/
def search_rating_info_raw (d : Doc) : Except AttrError String :=
  match findRatingSpan d with
  | none => .error .mk
  | some s => .ok (strip s.spanText)

/-- The value a raw search function hands to the two decorators: Python is
untyped there, so the result is `None`, a string, or a list of elements. -/
inductive SearchResult where
  | noneRes
  | strRes (s : String)
  | listRes (l : List Element)
deriving DecidableEq, Repr

/-- `_search_exception_handling`: run the search function and turn an
`AttributeError` into the sentinel string `'NaN'`. -/
def search_exception_handling : Except AttrError SearchResult → SearchResult
  | .error _ => .strRes "NaN"
  | .ok r => r

/-- Python `set(...)`: the distinct elements of the list. -/
def dedupStr : List String → List String
  | [] => []
  | x :: xs =>
    let r := dedupStr xs
    if x ∈ r then r else x :: r

/-- Sorted insertion of one string, ascending by `strLt`. -/
def insertStr (x : String) : List String → List String
  | [] => [x]
  | y :: ys => if strLt x y then x :: y :: ys else y :: insertStr x ys

/-- Python `sorted(...)` on strings: ascending lexicographic order by
code point. -/
def sortStrings : List String → List String
  | [] => []
  | x :: xs => insertStr x (sortStrings xs)

/-- The multi-valued-field flattening of `_feature_formatting`:
`', '.join(sorted(set(vals)))`. -/
def sortedJoin (vals : List String) : String :=
  joinWith ", " (sortStrings (dedupStr vals))

/-- `_feature_formatting`: `None` becomes `'NaN'`; a list of elements is
stripped, deduplicated, sorted and joined with `', '`, and the placeholder
result `'add some'` collapses to `'NaN'`; a string passes through. -/
def feature_formatting : SearchResult → String
  | .noneRes => "NaN"
  | .strRes s => s
  | .listRes l =>
    let fv := sortedJoin (l.map (fun e => strip e.text))
    if fv == "add some" then "NaN" else fv

/-- `_info_from_sibling` with both decorators applied. -/
def info_from_sibling (d : Doc) (m : TagMatcher) : String :=
  feature_formatting (search_exception_handling
    ((info_from_sibling_raw d m).map SearchResult.strRes))

/-- `_info_from_next_tag` with both decorators applied. -/
def info_from_next_tag (d : Doc) (m : TagMatcher) : String :=
  feature_formatting (search_exception_handling
    ((info_from_next_tag_raw d m).map SearchResult.strRes))

/-- `_info_from_several_siblings` with both decorators applied. -/
def info_from_several_siblings (d : Doc) (m : TagMatcher) : String :=
  feature_formatting (search_exception_handling
    ((info_from_several_siblings_raw d m).map SearchResult.listRes))

/-- `_search_rating_info` with both decorators applied. -/
def search_rating_info (d : Doc) : String :=
  feature_formatting (search_exception_handling
    ((search_rating_info_raw d).map SearchResult.strRes))

/-- The synopsis extraction of `get_anime_info`: the sibling block's text,
stripped, split on newlines, last line discarded, joined with spaces; any
`AttributeError` in the chase yields `'NaN'`. -/
def extract_synopsis (d : Doc) : String :=
  match d.synopsisParentSibling with
  | none => "NaN"
  | some e => joinWith " " ((splitLines (strip e.text)).dropLast)

/-- The 19 fields of `get_anime_info`, in write order, given that the
title heading `h` was found (otherwise the method raises first). -/
def assemble_record (d : Doc) (h : Element) : List String :=
  [strip h.text,
   info_from_sibling d (.exact "English:"),
   info_from_next_tag d (.exact "Type:"),
   info_from_sibling d (.exact "Episodes:"),
   info_from_sibling d (.exact "Status:"),
   info_from_sibling d (.exact "Aired:"),
   info_from_next_tag d (.exact "Premiered:"),
   info_from_sibling d (.exact "Broadcast:"),
   info_from_several_siblings d (.exact "Producers:"),
   info_from_several_siblings d (.exact "Licensors:"),
   info_from_several_siblings d (.exact "Studios:"),
   info_from_sibling d (.exact "Source:"),
   info_from_several_siblings d (.exact "Genres:"),
   info_from_several_siblings d (.pattern "Theme"),
   info_from_several_siblings d (.exact "Demographic:"),
   info_from_sibling d (.exact "Duration:"),
   info_from_sibling d (.exact "Rating:"),
   extract_synopsis d,
   search_rating_info d]

/-- `get_anime_info` applied to an already-fetched detail document and the
current store contents: an absent title heading raises `AttributeError`
before anything is written; otherwise exactly one 19-field row is
appended. -/
def get_anime_info (d : Doc) (store : List (List String)) :
    Except AttrError (List (List String)) :=
  match d.titleH1 with
  | none => .error .mk
  | some h => .ok (store ++ [assemble_record d h])

/-- The fixed 19-column header row written by `AnimeParser.__init__`. -/
def csv_header : List String :=
  ["title", "english_title", "type_of_anime", "episodes", "status", "aired",
   "premiered", "broadcast", "producers", "licensors", "studios", "source",
   "genres", "themes", "demographics", "duration", "adult_rating",
   "synopsis", "rating"]

/-- `AnimeParser.__init__` acting on the data file: `prior` is the file's
rows if it exists, `none` if absent; `redo` is the reset flag. The file is
overwritten with just the header when absent or when `redo` is set, and
left untouched otherwise. -/
def init_store : Option (List (List String)) → Bool → List (List String)
  | none, _ => [csv_header]
  | some _, true => [csv_header]
  | some t, false => t

/-- An anchor element of a listing page: its `class` string and `href`. -/
structure Anchor where
  cls : String
  href : String
deriving DecidableEq, Repr

/-- A fetched HTTP response for a listing page: its status code and the
anchors found in its parsed body. -/
structure HttpResponse where
  status : Nat
  anchors : List Anchor
deriving DecidableEq, Repr

/-- The anchor class marking an item link on a listing page. -/
def link_marker_class : String := "hoverinfo_trigger fl-l ml12 mr8"

/-- `collect_anime_links` applied to an already-fetched response: status
404 raises `requests.HTTPError`; any other status — 2xx or not — has its
body parsed and every matching anchor's `href` collected in document
order. -/
def collect_anime_links (resp : HttpResponse) : Except Unit (List String) :=
  if resp.status == 404 then .error ()
  else .ok ((resp.anchors.filter (fun a => a.cls == link_marker_class)).map Anchor.href)

/-- One attempt of a network operation as the retry decorator sees it:
success, an exception in `retry_exceptions` (`requests.ConnectionError`,
`requests.Timeout`), or any other exception. -/
inductive CallResult (α : Type) where
  | ok (a : α)
  | transientFail
  | otherFail
deriving DecidableEq, Repr

/-- Modelled from the spec: the `@retry(...)` decorator of the external
`retry` library, which is not part of this repository. Per §4.2, it
invokes the operation; on a transient failure it sleeps the current
delay, multiplies the delay by the backoff multiplier, decrements the
remaining attempts and retries; on any other failure or success it
returns immediately; once attempts are exhausted the last transient
failure is re-raised. `op` gives the outcome of each attempt (numbered
from 0); the result pairs the final outcome with the list of sleep
delays performed. The call sites use tries=5, delay=5, backoff=2. -/
def withRetry {α : Type} (op : Nat → CallResult α) (backoff : Nat) :
    Nat → Nat → Nat → CallResult α × List Nat
  | 0, _, _ => (.transientFail, [])
  | tries + 1, delay, attempt =>
    match op attempt with
    | .transientFail =>
      match tries with
      | 0 => (.transientFail, [])
      | _ + 1 =>
        let r := withRetry op backoff tries (delay * backoff) (attempt + 1)
        (r.1, delay :: r.2)
    | res => (res, [])

/-- The post-retry outcome of processing one queued item link inside
`run_parser`: a fetched detail document, or an unrecovered network
exception (which `run_parser` does not catch). -/
inductive ItemOutcome where
  | gotDoc (d : Doc)
  | netFatal
deriving Repr

/-- The post-retry outcome of `collect_anime_links` at one offset:
`notFound` is the `requests.HTTPError` raised on status 404; `netFatal`
is an unrecovered transport exception; otherwise the page's queued
items. -/
inductive PageOutcome where
  | notFound
  | netFatal
  | pageLinks (items : List ItemOutcome)
deriving Repr

/-- How one run of `run_parser` ended. -/
inductive Outcome where
  | finished
  | crashed
  | fuelOut
deriving DecidableEq, Repr

/-- Observable result of a run: final store rows, the listing offsets
requested in order, and how the run ended. -/
structure RunOut where
  store : List (List String)
  offsets : List Nat
  outcome : Outcome
deriving Repr

/-- The per-page item loop of `run_parser`: each link in order is passed
to `get_anime_info`, which appends one row; an unrecovered exception
stops the loop with the rows appended so far. -/
def process_links : List ItemOutcome → List (List String) → List (List String) × Bool
  | [], st => (st, true)
  | .netFatal :: _, st => (st, false)
  | .gotDoc d :: rest, st =>
    match get_anime_info d st with
    | .error _ => (st, false)
    | .ok st2 => process_links rest st2

/-- The `while True` loop of `run_parser`, with `env` giving the
post-retry outcome of the listing fetch at each offset and `fuel`
bounding the number of iterations. `requests.HTTPError` (the 404 signal)
breaks the loop cleanly; any other exception propagates; otherwise the
page's items are processed and the offset advances by 50. -/
def run_crawl_loop (env : Nat → PageOutcome) : Nat → Nat → List (List String) → RunOut
  | 0, _, st => ⟨st, [], .fuelOut⟩
  | fuel + 1, pn, st =>
    match env pn with
    | .notFound => ⟨st, [pn], .finished⟩
    | .netFatal => ⟨st, [pn], .crashed⟩
    | .pageLinks items =>
      let pr := process_links items st
      if pr.2 then
        let r := run_crawl_loop env fuel (pn + 50) pr.1
        ⟨r.store, pn :: r.offsets, r.outcome⟩
      else ⟨pr.1, [pn], .crashed⟩

/-- `sum(1 for _ in reader) - 1`: the data-row count of the store file
(header excluded). -/
def num_anime_records (rows : List (List String)) : Nat :=
  rows.length - 1

/-- `run_parser`: count existing data rows, start at
`page_num = num_anime_records // 50`, and loop. -/
def run_crawl (env : Nat → PageOutcome) (fuel : Nat)
    (rows : List (List String)) : RunOut :=
  run_crawl_loop env fuel (num_anime_records rows / 50) rows

/-- A detail page with a title heading but no spans at all. -/
def docEmpty : Doc := ⟨[], some ⟨"Cowboy Bebop"⟩, none⟩

/-- A detail page missing the mandatory title heading. -/
def docNoTitle : Doc := ⟨[], none, none⟩

/-- A detail page whose `Producers:` marker is present but has zero
following sibling elements. -/
def docEmptySiblings : Doc :=
  ⟨[⟨"Producers:", none, none, none, []⟩], some ⟨"Cowboy Bebop"⟩, none⟩

/-- A detail page whose `Genres:` marker has duplicate sibling values. -/
def docGenres : Doc :=
  ⟨[⟨"Genres:", none, none, none, [⟨"Action"⟩, ⟨"Drama"⟩, ⟨"Action"⟩]⟩],
   some ⟨"Cowboy Bebop"⟩, none⟩

/-- A catalog whose every listing page is already gone (status 404). -/
def envAllNotFound : Nat → PageOutcome := fun _ => .notFound

/-- A catalog with empty listing pages at offsets below 52 and 404 above. -/
def envTwoPages : Nat → PageOutcome :=
  fun n => if n < 52 then .pageLinks [] else .notFound

/-- A store file holding the header and exactly 50 data rows. -/
def store50 : List (List String) := csv_header :: List.replicate 50 ["r"]

/-- A status-500 listing response whose body still carries one item
anchor. -/
def resp500 : HttpResponse :=
  ⟨500, [⟨link_marker_class, "https://myanimelist.net/anime/1"⟩]⟩

/-- A status-404 listing response. -/
def resp404 : HttpResponse := ⟨404, []⟩

/-- An operation failing transiently on its first four attempts and
succeeding on the fifth. -/
def opFourFails : Nat → CallResult Nat :=
  fun k => if k < 4 then .transientFail else .ok 7

/-- An operation failing transiently on every attempt. -/
def opAllFail : Nat → CallResult Nat := fun _ => .transientFail

/-- An operation failing transiently once, then succeeding. -/
def opOneFail : Nat → CallResult Nat :=
  fun k => if k = 0 then .transientFail else .ok 3

/-! Helper lemmas: the flattening of multi-valued fields really sorts and
deduplicates. -/

/-- Code-point lexicographic less-than is asymmetric. -/
theorem lexLt_asymm : ∀ a b : List Char, lexLt a b = true → lexLt b a = false := by
  intro a
  induction a with
  | nil =>
    intro b h
    cases b with
    | nil => simp [lexLt] at h
    | cons c cs => simp [lexLt]
  | cons c cs ih =>
    intro b h
    cases b with
    | nil => simp [lexLt] at h
    | cons d ds =>
      simp only [lexLt] at h ⊢
      by_cases h1 : c.toNat < d.toNat
      · have h2 : ¬ d.toNat < c.toNat := by omega
        simp [h1, h2]
      · by_cases h2 : d.toNat < c.toNat
        · simp [h1, h2] at h
        · simp [h1, h2] at h ⊢
          exact ih ds h

/-- Membership through sorted insertion. -/
theorem mem_insertStr (x : String) : ∀ (l : List String) (a : String),
    a ∈ insertStr x l ↔ a = x ∨ a ∈ l := by
  intro l
  induction l with
  | nil => intro a; simp [insertStr]
  | cons y ys ih =>
    intro a
    simp only [insertStr]
    split
    · simp [List.mem_cons]
    · simp [List.mem_cons, ih]
      tauto

/-- The head of a sorted insertion is the new element or the old head. -/
theorem head_insertStr (x : String) : ∀ l : List String,
    (insertStr x l).head? = some x ∨ (insertStr x l).head? = l.head? := by
  intro l
  cases l with
  | nil => left; rfl
  | cons y ys =>
    simp only [insertStr]
    split
    · left; rfl
    · right; rfl

/-- Sorted insertion preserves ascending adjacent order. -/
theorem chain_insertStr (x : String) : ∀ l : List String,
    l.Chain' (fun a b => strLt b a = false) →
    (insertStr x l).Chain' (fun a b => strLt b a = false) := by
  intro l
  induction l with
  | nil => intro _; simp [insertStr]
  | cons y ys ih =>
    intro hch
    rw [List.chain'_cons'] at hch
    simp only [insertStr]
    split
    · rename_i hxy
      rw [List.chain'_cons']
      refine ⟨?_, ?_⟩
      · intro z hz
        simp at hz
        subst hz
        exact lexLt_asymm _ _ hxy
      · rw [List.chain'_cons']
        exact hch
    · rename_i hxy
      rw [List.chain'_cons']
      refine ⟨?_, ih hch.2⟩
      intro z hz
      rcases head_insertStr x ys with hh | hh
      · rw [hh] at hz
        simp at hz
        subst hz
        simpa using Bool.of_not_eq_true hxy
      · rw [hh] at hz
        exact hch.1 z hz

/-- The insertion sort of any string list has ascending adjacent order. -/
theorem chain_sortStrings : ∀ l : List String,
    (sortStrings l).Chain' (fun a b => strLt b a = false) := by
  intro l
  induction l with
  | nil => simp [sortStrings]
  | cons x xs ih => exact chain_insertStr x _ ih

/-- Sorting does not change membership. -/
theorem mem_sortStrings : ∀ (l : List String) (a : String),
    a ∈ sortStrings l ↔ a ∈ l := by
  intro l
  induction l with
  | nil => intro a; simp [sortStrings]
  | cons x xs ih =>
    intro a
    simp only [sortStrings]
    rw [mem_insertStr, ih, List.mem_cons]

/-- Deduplication does not change membership. -/
theorem mem_dedupStr : ∀ (l : List String) (a : String),
    a ∈ dedupStr l ↔ a ∈ l := by
  intro l
  induction l with
  | nil => intro a; simp [dedupStr]
  | cons x xs ih =>
    intro a
    simp only [dedupStr]
    split
    · rename_i hx
      rw [ih, List.mem_cons]
      constructor
      · exact Or.inr
      · rintro (rfl | h)
        · exact (ih a).mp hx
        · exact h
    · simp [List.mem_cons, ih]

/-- Deduplication yields a duplicate-free list. -/
theorem nodup_dedupStr : ∀ l : List String, (dedupStr l).Nodup := by
  intro l
  induction l with
  | nil => simp [dedupStr]
  | cons x xs ih =>
    simp only [dedupStr]
    split
    · exact ih
    · rename_i hx
      exact List.nodup_cons.mpr ⟨hx, ih⟩

/-- Sorted insertion of a fresh element preserves distinctness. -/
theorem nodup_insertStr (x : String) : ∀ l : List String,
    x ∉ l → l.Nodup → (insertStr x l).Nodup := by
  intro l
  induction l with
  | nil => intro _ _; simp [insertStr]
  | cons y ys ih =>
    intro hx hnd
    simp only [insertStr]
    split
    · exact List.nodup_cons.mpr ⟨hx, hnd⟩
    · rw [List.nodup_cons] at hnd ⊢
      refine ⟨?_, ih (fun h => hx (List.mem_cons_of_mem _ h)) hnd.2⟩
      rw [mem_insertStr]
      rintro (rfl | h)
      · exact hx (List.mem_cons_self _ _)
      · exact hnd.1 h

/-- Sorting preserves distinctness. -/
theorem nodup_sortStrings : ∀ l : List String, l.Nodup → (sortStrings l).Nodup := by
  intro l
  induction l with
  | nil => intro _; simp [sortStrings]
  | cons x xs ih =>
    intro hnd
    rw [List.nodup_cons] at hnd
    simp only [sortStrings]
    refine nodup_insertStr x _ ?_ (ih hnd.2)
    rw [mem_sortStrings]
    exact hnd.1

/-- C4: for every document and every label absent from it, each
field-extraction strategy (sibling, next-element, all-following-siblings,
rating-attribute) returns the sentinel `"NaN"` and never raises; the
failure is resolved locally, so the item's record is still fully
assembled whenever the title heading is present. -/
theorem claim_C4 : ∀ (d : Doc) (m : TagMatcher) (st : List (List String)) (h : Element),
    (findSpanM d m = none →
      info_from_sibling d m = "NaN" ∧
      info_from_next_tag d m = "NaN" ∧
      info_from_several_siblings d m = "NaN") ∧
    (findRatingSpan d = none → search_rating_info d = "NaN") ∧
    (d.titleH1 = some h → get_anime_info d st = .ok (st ++ [assemble_record d h])) := by
  intro d m st h
  refine ⟨?_, ?_, ?_⟩
  · intro hnone
    refine ⟨?_, ?_, ?_⟩
    · simp [info_from_sibling, info_from_sibling_raw, hnone,
        search_exception_handling, feature_formatting, Except.map]
    · simp [info_from_next_tag, info_from_next_tag_raw, hnone,
        search_exception_handling, feature_formatting, Except.map]
    · simp [info_from_several_siblings, info_from_several_siblings_raw, hnone,
        search_exception_handling, feature_formatting, Except.map]
  · intro hnone
    simp [search_rating_info, search_rating_info_raw, hnone,
      search_exception_handling, feature_formatting, Except.map]
  · intro ht
    simp [get_anime_info, ht]

/-- C4 witness: on a document with no spans at all, every strategy yields
`"NaN"` and the record is still assembled and appended. -/
theorem claim_C4_witness :
    info_from_sibling docEmpty (.exact "English:") = "NaN" ∧
    info_from_next_tag docEmpty (.exact "Type:") = "NaN" ∧
    info_from_several_siblings docEmpty (.exact "Producers:") = "NaN" ∧
    search_rating_info docEmpty = "NaN" ∧
    get_anime_info docEmpty [] = .ok [assemble_record docEmpty ⟨"Cowboy Bebop"⟩] :=
  ⟨((claim_C4 docEmpty (.exact "English:") [] ⟨"Cowboy Bebop"⟩).1 rfl).1,
   ((claim_C4 docEmpty (.exact "Type:") [] ⟨"Cowboy Bebop"⟩).1 rfl).2.1,
   ((claim_C4 docEmpty (.exact "Producers:") [] ⟨"Cowboy Bebop"⟩).1 rfl).2.2,
   (claim_C4 docEmpty (.exact "English:") [] ⟨"Cowboy Bebop"⟩).2.1 rfl,
   (claim_C4 docEmpty (.exact "English:") [] ⟨"Cowboy Bebop"⟩).2.2 rfl⟩

/-- C5: a multi-valued extraction yielding a list of elements stores the
stripped values deduplicated, sorted (case-sensitively, by code point)
and joined with `", "`; the flattening really is duplicate-free, in
ascending adjacent order and membership-preserving;
`["Action","Drama","Action"]` stores exactly `"Action, Drama"`; a sole
`"add some"` placeholder stores the sentinel `"NaN"`. -/
theorem claim_C5 : ∀ (d : Doc) (m : TagMatcher) (l : List Element),
    (info_from_several_siblings_raw d m = .ok l →
      info_from_several_siblings d m =
        (if sortedJoin (l.map (fun e => strip e.text)) == "add some" then "NaN"
         else sortedJoin (l.map (fun e => strip e.text)))) ∧
    (∀ vals : List String,
      (sortStrings (dedupStr vals)).Chain' (fun a b => strLt b a = false) ∧
      (sortStrings (dedupStr vals)).Nodup ∧
      (∀ a, a ∈ sortStrings (dedupStr vals) ↔ a ∈ vals)) ∧
    feature_formatting (.listRes [⟨"Action"⟩, ⟨"Drama"⟩, ⟨"Action"⟩]) = "Action, Drama" ∧
    feature_formatting (.listRes [⟨"add some"⟩]) = "NaN" := by
  intro d m l
  refine ⟨?_, ?_, by decide, by decide⟩
  · intro hok
    simp [info_from_several_siblings, hok, Except.map,
      search_exception_handling, feature_formatting]
  · intro vals
    refine ⟨chain_sortStrings _, nodup_sortStrings _ (nodup_dedupStr _), ?_⟩
    intro a
    rw [mem_sortStrings, mem_dedupStr]

/-- C5 witness: end-to-end on a document whose `Genres:` marker has
sibling values `Action`, `Drama`, `Action`. -/
theorem claim_C5_witness :
    info_from_several_siblings docGenres (.exact "Genres:") = "Action, Drama" := by
  have h := (claim_C5 docGenres (.exact "Genres:")
    [⟨"Action"⟩, ⟨"Drama"⟩, ⟨"Action"⟩]).1 rfl
  rw [h]
  decide

/-- C9: each item either has all 19 fields assembled and exactly one row
appended, or nothing persisted: an absent title heading raises before any
write, leaving the store unchanged. -/
theorem claim_C9 : ∀ (d : Doc) (st : List (List String)) (h : Element),
    (d.titleH1 = none → get_anime_info d st = .error .mk) ∧
    (d.titleH1 = some h →
      get_anime_info d st = .ok (st ++ [assemble_record d h]) ∧
      (assemble_record d h).length = 19) := by
  intro d st h
  refine ⟨?_, ?_⟩
  · intro hn
    simp [get_anime_info, hn]
  · intro hs
    refine ⟨by simp [get_anime_info, hs], by simp [assemble_record]⟩

/-- C9 witness: a title-less page appends nothing; a titled page appends
exactly one 19-field row. -/
theorem claim_C9_witness :
    get_anime_info docNoTitle [] = .error .mk ∧
    get_anime_info docEmpty [] = .ok ([] ++ [assemble_record docEmpty ⟨"Cowboy Bebop"⟩]) ∧
    (assemble_record docEmpty ⟨"Cowboy Bebop"⟩).length = 19 :=
  ⟨(claim_C9 docNoTitle [] ⟨"x"⟩).1 rfl,
   ((claim_C9 docEmpty [] ⟨"Cowboy Bebop"⟩).2 rfl).1,
   ((claim_C9 docEmpty [] ⟨"Cowboy Bebop"⟩).2 rfl).2⟩

/-- C10: the placeholder collapse fires only when the entire flattened
result equals `"add some"`: whenever the joined result differs from
`"add some"` it is stored verbatim, and `"add some"` extracted alongside
`"Action"` is retained inside `"Action, add some"`. -/
theorem claim_C10 : ∀ l : List Element,
    (sortedJoin (l.map (fun e => strip e.text)) ≠ "add some" →
      feature_formatting (.listRes l) = sortedJoin (l.map (fun e => strip e.text))) ∧
    feature_formatting (.listRes [⟨"add some"⟩, ⟨"Action"⟩]) = "Action, add some" ∧
    feature_formatting (.listRes [⟨"add some"⟩]) = "NaN" := by
  intro l
  refine ⟨?_, by decide, by decide⟩
  intro hne
  simp [feature_formatting, hne]

/-- C10 witness: a list joining to something other than `"add some"` is
stored verbatim. -/
theorem claim_C10_witness :
    feature_formatting (.listRes [⟨"add some"⟩, ⟨"Action"⟩]) =
      sortedJoin ([⟨"add some"⟩, ⟨"Action"⟩].map (fun e : Element => strip e.text)) :=
  (claim_C10 [⟨"add some"⟩, ⟨"Action"⟩]).1 (by decide)

/-- C3: with tries=5, delay=5, backoff=2, an immediate success or a
non-transient failure returns at once with no sleeps; four transient
failures then a success succeed after exactly the four backoff sleeps
5, 10, 20, 40; five consecutive transient failures exhaust the budget
and surface the last transient failure, again after sleeps
5, 10, 20, 40. -/
theorem claim_C3 : ∀ (α : Type) (op : Nat → CallResult α) (a : α),
    (op 0 = .ok a → withRetry op 2 5 5 0 = (.ok a, [])) ∧
    (op 0 = .otherFail → withRetry op 2 5 5 0 = (.otherFail, [])) ∧
    ((∀ k, k < 4 → op k = .transientFail) → op 4 = .ok a →
      withRetry op 2 5 5 0 = (.ok a, [5, 10, 20, 40])) ∧
    ((∀ k, k ≤ 4 → op k = .transientFail) →
      withRetry op 2 5 5 0 = (.transientFail, [5, 10, 20, 40])) := by
  intro α op a
  refine ⟨?_, ?_, ?_, ?_⟩
  · intro h
    simp [withRetry, h]
  · intro h
    simp [withRetry, h]
  · intro htr hok
    have h0 := htr 0 (by omega)
    have h1 := htr 1 (by omega)
    have h2 := htr 2 (by omega)
    have h3 := htr 3 (by omega)
    simp [withRetry, h0, h1, h2, h3, hok]
  · intro htr
    have h0 := htr 0 (by omega)
    have h1 := htr 1 (by omega)
    have h2 := htr 2 (by omega)
    have h3 := htr 3 (by omega)
    have h4 := htr 4 (by omega)
    simp [withRetry, h0, h1, h2, h3, h4]

/-- C3 witness: concrete operations failing four times then succeeding,
and failing every time. -/
theorem claim_C3_witness :
    withRetry opFourFails 2 5 5 0 = (.ok 7, [5, 10, 20, 40]) ∧
    withRetry opAllFail 2 5 5 0 = (.transientFail, [5, 10, 20, 40]) :=
  ⟨(claim_C3 Nat opFourFails 7).2.2.1
      (fun k hk => by simp [opFourFails, hk]) (by decide),
   (claim_C3 Nat opAllFail 0).2.2.2 (fun k _ => rfl)⟩

/-- C7: initializing with `redo` set yields exactly the fixed 19-column
header and zero data rows regardless of prior contents; with `redo`
unset and a file present, the contents are left unchanged. -/
theorem claim_C7 : ∀ (prior : Option (List (List String))) (t : List (List String)),
    init_store prior true = [csv_header] ∧
    csv_header.length = 19 ∧
    num_anime_records (init_store prior true) = 0 ∧
    init_store (some t) false = t := by
  intro prior t
  refine ⟨?_, rfl, ?_, rfl⟩
  · cases prior <;> rfl
  · cases prior <;> rfl

/-- Unfolding of the loop at an offset whose fetch returns 404. -/
theorem run_crawl_loop_succ_notFound (env : Nat → PageOutcome) (fuel pn : Nat)
    (st : List (List String)) (h : env pn = .notFound) :
    run_crawl_loop env (fuel + 1) pn st = ⟨st, [pn], .finished⟩ := by
  simp [run_crawl_loop, h]

/-- Unfolding of the loop at an offset whose fetch fails fatally. -/
theorem run_crawl_loop_succ_netFatal (env : Nat → PageOutcome) (fuel pn : Nat)
    (st : List (List String)) (h : env pn = .netFatal) :
    run_crawl_loop env (fuel + 1) pn st = ⟨st, [pn], .crashed⟩ := by
  simp [run_crawl_loop, h]

/-- Unfolding of the loop at an offset whose fetch yields a page. -/
theorem run_crawl_loop_succ_pageLinks (env : Nat → PageOutcome) (fuel pn : Nat)
    (st : List (List String)) (items : List ItemOutcome)
    (h : env pn = .pageLinks items) :
    run_crawl_loop env (fuel + 1) pn st =
      (if (process_links items st).2 then
        ⟨(run_crawl_loop env fuel (pn + 50) (process_links items st).1).store,
         pn :: (run_crawl_loop env fuel (pn + 50) (process_links items st).1).offsets,
         (run_crawl_loop env fuel (pn + 50) (process_links items st).1).outcome⟩
       else ⟨(process_links items st).1, [pn], .crashed⟩) := by
  simp [run_crawl_loop, h]

/-- Helper for C2: a run can only end in `Finished` because some
requested listing offset — the last one — returned the 404 signal. -/
theorem finished_only_by_notFound (env : Nat → PageOutcome) :
    ∀ (fuel pn : Nat) (st : List (List String)),
      (run_crawl_loop env fuel pn st).outcome = .finished →
      ∃ off, (run_crawl_loop env fuel pn st).offsets.getLast? = some off ∧
        env off = .notFound := by
  intro fuel
  induction fuel with
  | zero =>
    intro pn st h
    simp [run_crawl_loop] at h
  | succ n ih =>
    intro pn st h
    cases henv : env pn with
    | notFound =>
      rw [run_crawl_loop_succ_notFound env n pn st henv]
      exact ⟨pn, by simp, henv⟩
    | netFatal =>
      rw [run_crawl_loop_succ_netFatal env n pn st henv] at h
      simp at h
    | pageLinks items =>
      rw [run_crawl_loop_succ_pageLinks env n pn st items henv] at h ⊢
      by_cases hok : (process_links items st).2
      · rw [if_pos hok] at h ⊢
        simp only at h
        obtain ⟨off, h1, h2⟩ := ih (pn + 50) (process_links items st).1 h
        refine ⟨off, ?_, h2⟩
        cases hoffs : (run_crawl_loop env n (pn + 50) (process_links items st).1).offsets with
        | nil => rw [hoffs] at h1; simp at h1
        | cons b bs =>
          rw [hoffs] at h1
          simp only [hoffs, List.getLast?_cons_cons]
          exact h1
      · rw [if_neg hok] at h
        simp at h

/-- C2: a listing fetch returning the 404 not-found signal transitions
the run immediately to the terminal `Finished` state with the store
unchanged and no further offset requested; and a run ends `Finished`
only because some requested offset — the last — returned not-found. -/
theorem claim_C2 : ∀ (env : Nat → PageOutcome) (fuel pn : Nat) (st : List (List String)),
    (env pn = .notFound →
      run_crawl_loop env (fuel + 1) pn st = ⟨st, [pn], .finished⟩) ∧
    ((run_crawl_loop env fuel pn st).outcome = .finished →
      ∃ off, (run_crawl_loop env fuel pn st).offsets.getLast? = some off ∧
        env off = .notFound) := by
  intro env fuel pn st
  refine ⟨?_, finished_only_by_notFound env fuel pn st⟩
  intro h
  simp [run_crawl_loop, h]

/-- C2 witness: a catalog that is already exhausted at the first request
finishes at once with the store untouched. -/
theorem claim_C2_witness :
    run_crawl_loop envAllNotFound 1 7 [csv_header] = ⟨[csv_header], [7], .finished⟩ ∧
    (∃ off, (run_crawl_loop envAllNotFound 1 7 [csv_header]).offsets.getLast? = some off ∧
      envAllNotFound off = .notFound) :=
  ⟨(claim_C2 envAllNotFound 0 7 [csv_header]).1 rfl,
   (claim_C2 envAllNotFound 1 7 [csv_header]).2 rfl⟩

/-- C1: evaluated on a store with exactly 50 data rows, a fresh run's
first requested listing offset is `50 // 50 = 1`, not
`50 * (50 // 50) = 50` as claimed: `run_parser` initializes `page_num`
to `num_anime_records // 50` (a page index) yet advances it by 50 (an
item offset) — so only the advance-by-50 half of the claim holds, shown
by the offsets `[0, 50, 100]` of a two-page run from an empty store. -/
theorem claim_C1 :
    num_anime_records store50 = 50 ∧
    (run_crawl envAllNotFound 1 store50).offsets = [1] ∧
    (1 : Nat) ≠ 50 * (num_anime_records store50 / 50) ∧
    (run_crawl envTwoPages 3 [csv_header]).offsets = [0, 50, 100] := by
  refine ⟨by decide, by decide, by decide, by decide⟩

/-- C6 counterexample: when the `Producers:` marker is present but has
zero following sibling elements, the stored value is the empty string,
not the sentinel `"NaN"` the claim requires. -/
theorem claim_C6_counterexample :
    info_from_several_siblings docEmptySiblings (.exact "Producers:") = "" ∧
    ("" : String) ≠ "NaN" :=
  ⟨rfl, by decide⟩

/-- C6 amended: every assembled record has exactly 19 string fields and
an absent marker stores `"NaN"`; but a multi-valued field whose marker is
present with zero following sibling elements stores the empty string
`""`, not the sentinel. -/
theorem claim_C6_amended : ∀ (d : Doc) (m : TagMatcher) (s : SpanNode) (h : Element),
    (assemble_record d h).length = 19 ∧
    (findSpanM d m = none → info_from_several_siblings d m = "NaN") ∧
    (findSpanM d m = some s → s.followingSiblings = [] →
      info_from_several_siblings d m = "") := by
  intro d m s h
  refine ⟨by simp [assemble_record], ?_, ?_⟩
  · intro hnone
    simp [info_from_several_siblings, info_from_several_siblings_raw, hnone,
      search_exception_handling, feature_formatting, Except.map]
  · intro hsome hsib
    simp [info_from_several_siblings, info_from_several_siblings_raw, hsome, hsib,
      search_exception_handling, feature_formatting, Except.map,
      sortedJoin, sortStrings, dedupStr, joinWith]

/-- C6 amended witness: the zero-sibling page stores `""` for producers
and `"NaN"` for the absent `Genres:` marker. -/
theorem claim_C6_amended_witness :
    (assemble_record docEmptySiblings ⟨"Cowboy Bebop"⟩).length = 19 ∧
    info_from_several_siblings docEmptySiblings (.exact "Genres:") = "NaN" ∧
    info_from_several_siblings docEmptySiblings (.exact "Producers:") = "" :=
  ⟨(claim_C6_amended docEmptySiblings (.exact "Genres:")
      ⟨"Producers:", none, none, none, []⟩ ⟨"Cowboy Bebop"⟩).1,
   (claim_C6_amended docEmptySiblings (.exact "Genres:")
      ⟨"Producers:", none, none, none, []⟩ ⟨"Cowboy Bebop"⟩).2.1 rfl,
   (claim_C6_amended docEmptySiblings (.exact "Producers:")
      ⟨"Producers:", none, none, none, []⟩ ⟨"Cowboy Bebop"⟩).2.2 rfl rfl⟩

/-- C8 counterexample: a status-500 listing response is not routed to any
failure category — its body is parsed and its item links are returned as
a successful result, contradicting the claimed `OtherFailure` routing of
non-2xx statuses. -/
theorem claim_C8_counterexample :
    resp500.status = 500 ∧
    collect_anime_links resp500 = .ok ["https://myanimelist.net/anime/1"] :=
  ⟨rfl, rfl⟩

/-- C8 amended: the classification is two-way plus pass-through:
connection failures and timeouts are the transient category, retried
with backoff (one transient failure then success costs exactly one sleep
of 5); HTTP 404 on a listing page raises the not-found signal; every
other status — 2xx or not — has its body parsed as a successful document
and its matching anchors returned. -/
theorem claim_C8_amended : ∀ (resp : HttpResponse) (op : Nat → CallResult Nat) (a : Nat),
    (resp.status = 404 → collect_anime_links resp = .error ()) ∧
    (resp.status ≠ 404 →
      collect_anime_links resp =
        .ok ((resp.anchors.filter (fun x => x.cls == link_marker_class)).map Anchor.href)) ∧
    (op 0 = .transientFail → op 1 = .ok a →
      withRetry op 2 5 5 0 = (.ok a, [5])) := by
  intro resp op a
  refine ⟨?_, ?_, ?_⟩
  · intro h
    simp [collect_anime_links, h]
  · intro h
    simp [collect_anime_links, h]
  · intro h0 h1
    simp [withRetry, h0, h1]

/-- C8 amended witness: the concrete 404 and 500 responses and a single
transient failure followed by success. -/
theorem claim_C8_amended_witness :
    collect_anime_links resp404 = .error () ∧
    collect_anime_links resp500 =
      .ok ((resp500.anchors.filter (fun x => x.cls == link_marker_class)).map Anchor.href) ∧
    withRetry opOneFail 2 5 5 0 = (.ok 3, [5]) :=
  ⟨(claim_C8_amended resp404 opOneFail 3).1 rfl,
   (claim_C8_amended resp500 opOneFail 3).2.1 (by decide),
   (claim_C8_amended resp500 opOneFail 3).2.2 rfl rfl⟩

end AnimeScrape
